import Mathlib

/-!
Verification development for the subscription-refresh pipeline of the
repository (files get_trial.py / get_trial_update_url.py, which are
logically identical, and 01.py).

The shared in-memory cache is a Python dict from string keys to values
that are intended to be lists of strings (per the annotation
`cache: dict[str, list[str]]`).  We embed it as an association list of
string keys to a value type that distinguishes list values from bare
string values, since the code in one place stores a bare string.

External, undefined callees (should_turn, do_turn, guess_panel,
gen_base64_and_clash_config, the utils helpers, the HTTP layer) are
modelled as oracle parameters: a value, or a function of the cache,
returning either a result or a raised exception.  Exceptions carry a
kind (to mirror Python except clauses that discriminate on the
exception class) and the message str(e).
-/

/-- Kind of a raised Python exception, mirroring the exception classes the
source discriminates on (requests.Timeout, requests.ConnectionError,
KeyError, IndexError, ValueError, HTTPError, anything else). -/
inductive ExcKind where
  | timeout
  | connErr
  | keyError
  | indexError
  | valueError
  | httpError
  | other
deriving DecidableEq

/-- A raised Python exception: its kind and its message str(e). -/
structure Exc where
  kind : ExcKind
  msg : String
deriving DecidableEq

/-- Result of a fallible Python computation: a value or a raised exception. -/
inductive Res (α : Type) where
  | ok (a : α)
  | err (e : Exc)
deriving DecidableEq

/-- Whether a fallible computation completed without raising. -/
def Res.isOk {α : Type} : Res α → Bool
  | .ok _ => true
  | .err _ => false

/-- A Python dict value stored in the shared cache: a list of strings
(the intended shape) or a bare string (which the source stores for the
key node_n). -/
inductive CVal where
  | vlist (l : List String)
  | vstr (s : String)
deriving DecidableEq

/-- The shared cache: a Python dict from string keys to values, embedded
as an association list in which the first binding of a key is its value. -/
def Cache : Type := List (String × CVal)

instance : DecidableEq Cache := by
  unfold Cache
  infer_instance

/-- Dict lookup, cache.get(k) / `k in cache`: the first binding of `k`. -/
def cget (c : Cache) (k : String) : Option CVal :=
  match c with
  | [] => none
  | (k2, v) :: rest => if k2 = k then some v else cget rest k

/-- Dict assignment cache[k] = v: replace the first binding of `k`, or
append a new binding when absent. -/
def cset (c : Cache) (k : String) (v : CVal) : Cache :=
  match c with
  | [] => [(k, v)]
  | (k2, v2) :: rest => if k2 = k then (k, v) :: rest else (k2, v2) :: cset rest k v

/-- Dict removal cache.pop(k, None): remove every binding of `k`. -/
def cpop (c : Cache) (k : String) : Cache :=
  match c with
  | [] => []
  | (k2, v2) :: rest => if k2 = k then cpop rest k else (k2, v2) :: cpop rest k

/-- Dict merge cache.update(info): assign each binding of `info` in order. -/
def cupdate (c : Cache) (info : List (String × CVal)) : Cache :=
  info.foldl (fun acc p => cset acc p.1 p.2) c

theorem cget_cset_self (c : Cache) (k : String) (v : CVal) :
    cget (cset c k v) k = some v := by
  induction c with
  | nil => simp [cget, cset]
  | cons hd tl ih =>
    by_cases h : hd.1 = k
    · simp [cget, cset, h]
    · simp [cget, cset, h, ih]

theorem cget_cset_ne (c : Cache) (k k2 : String) (v : CVal) (h : k ≠ k2) :
    cget (cset c k v) k2 = cget c k2 := by
  induction c with
  | nil => simp [cget, cset, h]
  | cons hd tl ih =>
    by_cases h2 : hd.1 = k
    · simp [cget, cset, h2, h]
    · by_cases h3 : hd.1 = k2
      · simp [cget, cset, h2, h3, Ne.symm h]
      · simp [cget, cset, h2, h3, ih]

theorem cget_cpop_self (c : Cache) (k : String) : cget (cpop c k) k = none := by
  induction c with
  | nil => simp [cget, cpop]
  | cons hd tl ih =>
    by_cases h : hd.1 = k
    · simp [cpop, h, ih]
    · simp [cget, cpop, h, ih]

theorem cget_cpop_ne (c : Cache) (k k2 : String) (h : k ≠ k2) :
    cget (cpop c k) k2 = cget c k2 := by
  induction c with
  | nil => simp [cpop]
  | cons hd tl ih =>
    by_cases h2 : hd.1 = k
    · have : hd.1 ≠ k2 := by
        rw [h2]
        exact h
      simp [cget, cpop, h2, this, ih, h]
    · by_cases h3 : hd.1 = k2
      · simp [cget, cpop, h2, h3, Ne.symm h]
      · simp [cget, cpop, h2, h3, ih]

/-!
Embedding of get_trial.py (get_trial_update_url.py differs only in the
text of some log messages; the control flow, cache keys and cache writes
are identical, so the theorems below cover both files).
-/

/-- Evaluation of the expression cache["sub_url"][0]: KeyError when the
key is absent, IndexError when the stored list (or string) is empty,
otherwise the first element (for a bare string, its first character). -/
def sub_url0 (c : Cache) : Res String :=
  match cget c "sub_url" with
  | none => .err ⟨.keyError, "sub_url"⟩
  | some (.vlist []) => .err ⟨.indexError, "list index out of range"⟩
  | some (.vlist (u :: _)) => .ok u
  | some (.vstr s) =>
    if s.isEmpty then .err ⟨.indexError, "string index out of range"⟩
    else .ok (String.mk [s.front])

theorem sub_url0_cset_ne (c : Cache) (k : String) (v : CVal) (h : k ≠ "sub_url") :
    sub_url0 (cset c k v) = sub_url0 c := by
  unfold sub_url0
  rw [cget_cset_ne c k "sub_url" v h]

/-- Embedding of get_sub (get_trial.py lines 21 to 46).  The oracle
`g0name` is the external call g0(cache, 'name'), whose value feeds only
the unused local suffix but which may raise; the oracle `http` is the
combined requests.get(url, timeout=10) and response.json() call,
returning the parsed info or raising.  The function first evaluates
cache['sub_url'][0] (raising before any logging if that fails), logs,
performs the request, and on success returns [info].  Each except branch
logs and re-raises; the generic branch only rebinds a local variable
under the lock and never writes the cache, so the cache passes through
unchanged in every branch. -/
def get_sub {α : Type} (g0name : Res String) (http : Res α)
    (cache : Cache) (log : List String) :
    (Cache × List String) × Res (List α) :=
  match sub_url0 cache with
  | .err e => ((cache, log), .err e)
  | .ok url =>
    match g0name with
    | .err e => ((cache, log), .err e)
    | .ok _ =>
      let log1 := log ++ ["开始获取订阅: " ++ url]
      match http with
      | .ok info => ((cache, log1 ++ ["成功获取订阅: " ++ url]), .ok [info])
      | .err e =>
        match e.kind with
        | .timeout => ((cache, log1 ++ ["获取订阅超时: " ++ url]), .err e)
        | .connErr => ((cache, log1 ++ ["连接错误: " ++ url]), .err e)
        | _ =>
          ((cache, log1 ++ ["获取订阅失败: " ++ url ++ ", 错误: " ++ e.msg]), .err e)

theorem get_sub_cache_eq {α : Type} (g0name : Res String) (http : Res α)
    (cache : Cache) (log : List String) :
    (get_sub g0name http cache log).fst.fst = cache := by
  unfold get_sub
  cases h : sub_url0 cache with
  | err e => rfl
  | ok u =>
    cases g0name with
    | err e => rfl
    | ok s =>
      cases http with
      | ok info => rfl
      | err e =>
        obtain ⟨k, m⟩ := e
        cases k <;> rfl

/-- The three failure-marker keys removed at the top of try_turn
(get_trial.py lines 50 to 53). -/
def pop3 (c : Cache) : Cache :=
  cpop (cpop (cpop c "更新旧订阅失败") "更新订阅链接/续费续签失败") "获取订阅失败"

/-- Embedding of the except branch of the should_turn call in try_turn
(get_trial.py lines 59 to 63): writes the marker under the lock, then
builds the log line, whose f-string itself evaluates
cache["sub_url"][0]; when that evaluation raises, the marker is already
set but the new exception propagates out of try_turn. -/
def decide_fail {α : Type} (host : String) (e : Exc) (c1 : Cache)
    (log0 : List String) : (Cache × List String) × Res (Option (List α)) :=
  let c2 := cset c1 "更新旧订阅失败" (CVal.vlist [e.msg])
  match sub_url0 c2 with
  | .err e2 => ((c2, log0), .err e2)
  | .ok u =>
    ((c2, log0 ++ ["更新旧订阅失败(" ++ host ++ ")(" ++ u ++ "): " ++ e.msg]),
     .ok none)

/-- Embedding of the re-fetch step of try_turn (get_trial.py lines 75
to 81): call get_sub; on success the fetched value replaces sub; on
failure write the marker and build the log line, which again evaluates
cache["sub_url"][0] and may itself raise. -/
def fetch_branch {α : Type} (g0name : Res String) (http : Res α) (host : String)
    (c2 : Cache) (sub : List α) (l3 : List String) :
    (Cache × List String) × Res (Option (List α)) :=
  match get_sub g0name http c2 l3 with
  | ((c3, l4), .ok sub2) => ((c3, l4 ++ ["获取新订阅成功: " ++ host]), .ok (some sub2))
  | ((c3, l4), .err e) =>
    let c4 := cset c3 "获取订阅失败" (CVal.vlist [e.msg])
    match sub_url0 c4 with
    | .err e2 => ((c4, l4), .err e2)
    | .ok u =>
      ((c4, l4 ++ ["获取订阅失败(" ++ host ++ ")(" ++ u ++ "): " ++ e.msg]),
       .ok (some sub))

/-- Embedding of the body of `if turn:` in try_turn (get_trial.py lines
65 to 83): when turn is falsy return sub unchanged; otherwise call
do_turn with force_reg = (turn == 2); on do_turn failure write the
marker, log, and return the sub from should_turn; on success log and
re-fetch. -/
def turn_branch {α : Type}
    (doTurn : Bool → Cache → List String → (Cache × List String) × Res Unit)
    (g0name : Res String) (http : Res α) (host : String)
    (c1 : Cache) (turn : Int) (sub : List α) (log0 : List String) :
    (Cache × List String) × Res (Option (List α)) :=
  if turn = 0 then ((c1, log0), .ok (some sub))
  else
    match doTurn (turn == 2) c1 log0 with
    | ((c2, l2), .err e) =>
      ((cset c2 "更新订阅链接/续费续签失败" (CVal.vlist [e.msg]),
        l2 ++ ["更新订阅链接/续费续签失败(" ++ host ++ "): " ++ e.msg]),
       .ok (some sub))
    | ((c2, l2), .ok _) =>
      fetch_branch g0name http host c2 sub (l2 ++ ["执行订阅更新成功: " ++ host])

/-- Embedding of try_turn (get_trial.py lines 48 to 83).  The oracle
`shouldTurn` is the external call should_turn(session, opt, cache): it
receives the cache (which it may mutate, Python passing the dict by
reference) and returns the mutated cache together with the unpacked
result (turn, *sub) or a raised exception.  The oracle `doTurn` is
do_turn(session, opt, cache, log, force_reg=...), likewise receiving and
returning cache and log.  The result is the final (cache, log) state and
either the returned value (None or sub) or an exception that propagated
out of try_turn. -/
def try_turn {α : Type}
    (shouldTurn : Cache → Cache × Res (Int × List α))
    (doTurn : Bool → Cache → List String → (Cache × List String) × Res Unit)
    (g0name : Res String) (http : Res α) (host : String)
    (cache : Cache) (log : List String) :
    (Cache × List String) × Res (Option (List α)) :=
  let c0 := pop3 cache
  let log0 := log ++ ["尝试更新订阅: " ++ host]
  match shouldTurn c0 with
  | (c1, .err e) => decide_fail host e c1 log0
  | (c1, .ok (turn, sub)) => turn_branch doTurn g0name http host c1 turn sub log0

/-- Embedding of cache_sub_info (get_trial.py lines 85 to 111).
`infoFalsy` is the Python truthiness test `not info` on the payload.
The oracle `compute` is the body of the try block up to the cache write
(float conversions, size2str, str2timestamp, timestamp2str and string
assembly, all external utils): on success it yields the four strings
[size2str(used), size2str(total), expire, rest] that the source stores
under sub_info; on failure it raises KeyError or ValueError (logged and
re-raised) or some other exception (propagating with no log line, since
only those two classes have handlers). -/
def cache_sub_info (infoFalsy : Bool) (compute : Res (List String))
    (cache : Cache) (log : List String) :
    (Cache × List String) × Res Unit :=
  if infoFalsy then
    ((cache, log ++ ["订阅信息为空"]), .err ⟨.other, "no sub info"⟩)
  else
    let log1 := log ++ ["开始缓存订阅信息"]
    match compute with
    | .ok vals =>
      ((cset cache "sub_info" (CVal.vlist vals), log1 ++ ["缓存订阅信息成功"]), .ok ())
    | .err e =>
      match e.kind with
      | .keyError => ((cache, log1 ++ ["订阅信息缺少键: " ++ e.msg]), .err e)
      | .valueError => ((cache, log1 ++ ["订阅信息值无效: " ++ e.msg]), .err e)
      | _ => ((cache, log1), .err e)

theorem cache_sub_info_err_cache (infoFalsy : Bool) (compute : Res (List String))
    (cache : Cache) (log : List String) (e : Exc)
    (h : (cache_sub_info infoFalsy compute cache log).snd = Res.err e) :
    (cache_sub_info infoFalsy compute cache log).fst.fst = cache := by
  unfold cache_sub_info
  cases infoFalsy with
  | true => rfl
  | false =>
    cases compute with
    | ok vals =>
      exfalso
      simp [cache_sub_info] at h
    | err e2 =>
      obtain ⟨k, m⟩ := e2
      cases k <;> rfl

/-- Embedding of save_sub_base64_and_clash (get_trial.py lines 113 to
129).  The oracle `genCfg` is the external call
gen_base64_and_clash_config(...), returning the node count or raising.
The wrapper logs before and after, and on failure logs and re-raises.
Note the source refers to a global log here; when the script runs as
main this is the same list that save_sub receives, which is the
behaviour embedded. -/
def save_sub_b64c (genCfg : Res Int) (host : String) (log : List String) :
    List String × Res Int :=
  let log1 := log ++ ["开始保存订阅配置: " ++ host]
  match genCfg with
  | .ok n => (log1 ++ ["保存订阅配置成功: " ++ host], .ok n)
  | .err e => (log1 ++ ["保存订阅配置失败: " ++ host ++ ", 错误: " ++ e.msg], .err e)

/-- Embedding of the first try block of save_sub (get_trial.py lines 137
to 142): run cache_sub_info; on any exception write the marker and log
(the handler uses only host and clash_url, so it cannot itself raise). -/
def save_sub_step1 (infoFalsy : Bool) (compute : Res (List String))
    (host clash_url : String) (c : Cache) (log : List String) :
    Cache × List String :=
  match cache_sub_info infoFalsy compute c log with
  | ((c1, l1), .ok _) => (c1, l1)
  | ((c1, l1), .err e) =>
    (cset c1 "保存订阅信息失败" (CVal.vlist [e.msg]),
     l1 ++ ["保存订阅信息失败(" ++ host ++ ")(" ++ clash_url ++ "): " ++ e.msg])

/-- Embedding of the second try block of save_sub (get_trial.py lines
144 to 153): run save_sub_base64_and_clash; on its success evaluate
int(g0(cache, 'node_n', 0)) (the oracle `g0int`, an external util call
that may raise, e.g. ValueError from int), log the node-count delta when
nonzero, and store cache['node_n'] = str(node_n) - a bare string, not a
list.  Any exception from the block writes the marker and logs. -/
def save_sub_step2 (genCfg : Res Int) (g0int : Cache → Res Int)
    (host base64_url clash_url : String) (c : Cache) (log : List String) :
    Cache × List String :=
  match save_sub_b64c genCfg host log with
  | (l1, .ok node_n) =>
    match g0int c with
    | .ok prev =>
      let d := node_n - prev
      let l2 :=
        if d ≠ 0 then
          l1 ++ [host ++ " 节点数 " ++ (if 0 < d then "+" else "") ++ toString d
                 ++ " (" ++ toString node_n ++ ")"]
        else l1
      (cset c "node_n" (CVal.vstr (toString node_n)), l2)
    | .err e =>
      (cset c "保存base64/clash订阅失败" (CVal.vlist [e.msg]),
       l1 ++ ["保存base64/clash订阅失败(" ++ host ++ ")(" ++ base64_url ++ ")("
              ++ clash_url ++ "): " ++ e.msg])
  | (l1, .err e) =>
    (cset c "保存base64/clash订阅失败" (CVal.vlist [e.msg]),
     l1 ++ ["保存base64/clash订阅失败(" ++ host ++ ")(" ++ base64_url ++ ")("
            ++ clash_url ++ "): " ++ e.msg])

/-- Embedding of save_sub (get_trial.py lines 131 to 153): pop the two
markers, run the two independently guarded steps, and return normally;
the trailing Res Unit records that control reaches the end of the
function in every case (each handler performs only a dict write and
string appends). -/
def save_sub (infoFalsy : Bool) (compute : Res (List String)) (genCfg : Res Int)
    (g0int : Cache → Res Int) (base64_url clash_url host : String)
    (cache : Cache) (log : List String) :
    (Cache × List String) × Res Unit :=
  let c0 := cpop (cpop cache "保存订阅信息失败") "保存base64/clash订阅失败"
  let p1 := save_sub_step1 infoFalsy compute host clash_url c0 log
  (save_sub_step2 genCfg g0int host base64_url clash_url p1.fst p1.snd, .ok ())

/-- Python truthiness of a cache value (used for the walrus test on
info.get('error') in new_panel_session): empty string and empty list are
falsy. -/
def truthyC : CVal → Bool
  | .vstr s => !s.isEmpty
  | .vlist l => !l.isEmpty

/-- Rendering of a cache value inside an f-string (str(e) in the log
line of new_panel_session); for a bare string this is the string itself,
for a list we abstract the Python list rendering as a bracketed
comma-separated form. -/
def pyStrC : CVal → String
  | .vstr s => s
  | .vlist l => "[" ++ String.intercalate ", " l ++ "]"

/-- Lift a constructor result to the Option-returning type of
new_panel_session: a constructed session is Some, an exception
propagates. -/
def resMapSome {α : Type} : Res α → Res (Option α)
  | .ok a => .ok (some a)
  | .err e => .err e

/-- Embedding of new_panel_session (get_trial.py lines 164 to 176).  The
oracle `guess` is the mapping returned by the external guess_panel(host);
the oracle `mk` is the session construction
panel_class_map[g0(cache, 'type')](g0(cache, 'api_host', host), ...),
which reads the final cache and may raise (e.g. KeyError on an unmapped
type).  When 'type' is already cached, guess_panel is not consulted;
when the guessed mapping lacks 'type', a log line is chosen by the
truthiness of its 'error' entry and None is returned with the cache
untouched; otherwise the whole mapping is merged into the cache first
and the session is constructed from the merged cache. -/
def new_panel_session {α : Type} (guess : List (String × CVal))
    (mk : Cache → Res α) (host : String) (cache : Cache) (log : List String) :
    (Cache × List String) × Res (Option α) :=
  if (cget cache "type").isSome then
    ((cache, log), resMapSome (mk cache))
  else
    match cget guess "type" with
    | some _ =>
      let c1 := cupdate cache guess
      ((c1, log), resMapSome (mk c1))
    | none =>
      match cget guess "error" with
      | some ev =>
        if truthyC ev then
          ((cache, log ++ [host ++ " 判别类型失败: " ++ pyStrC ev]), .ok none)
        else
          ((cache, log ++ [host ++ " 未知类型"]), .ok none)
      | none => ((cache, log ++ [host ++ " 未知类型"]), .ok none)

/-!
Embedding of 01.py (APIClient).  There is no shared cache in this file;
messages go to the logging module, embedded as a list of emitted lines.
JSON bodies are embedded as a small JSON value type.
-/

/-- A parsed JSON value, as returned by response.json(). -/
inductive JVal where
  | jnull
  | jbool (b : Bool)
  | jnum (n : Int)
  | jstr (s : String)
  | jarr (xs : List JVal)
  | jobj (fields : List (String × JVal))

/-- Python truthiness of a JSON value (the `if result:` test). -/
def truthyJ : JVal → Bool
  | .jnull => false
  | .jbool b => b
  | .jnum n => n != 0
  | .jstr s => !s.isEmpty
  | .jarr xs => !xs.isEmpty
  | .jobj fs => !fs.isEmpty

/-- Lookup of a key in a JSON object list (first binding wins). -/
def jLook (fs : List (String × JVal)) (k : String) : Option JVal :=
  match fs with
  | [] => none
  | (k2, v) :: rest => if k2 = k then some v else jLook rest k

/-- Subscript v[k] on a JSON value: KeyError when the key is absent from
an object, TypeError (kind other) when the value is not an object. -/
def jGet (v : JVal) (k : String) : Res JVal :=
  match v with
  | .jobj fs =>
    match jLook fs k with
    | some w => .ok w
    | none => .err ⟨.keyError, k⟩
  | _ => .err ⟨.other, "object is not subscriptable"⟩

/-- The chained subscript v[k1][k2]. -/
def jGet2 (v : JVal) (k1 k2 : String) : Res JVal :=
  match jGet v k1 with
  | .ok w => jGet w k2
  | .err e => .err e

/-- Rendering of a JSON value inside an f-string (only string and number
tokens appear in the embedded log lines). -/
def pyStrJ : JVal → String
  | .jnull => "None"
  | .jbool b => if b then "True" else "False"
  | .jnum n => toString n
  | .jstr s => s
  | .jarr _ => "<list>"
  | .jobj _ => "<dict>"

/-- Outcome of the requests.request / raise_for_status / response.json()
sequence inside APIClient.make_request, i.e. which except clause (if
any) the try body triggers.  For an HTTP error status, the handler
itself calls e.response.json().get("message", "未知错误"); that nested
call is the `Res String` carried by the httpError constructor, since it
may raise (for instance when the error body is not JSON). -/
inductive ReqOutcome where
  | ok (body : JVal)
  | timeout
  | connErr
  | httpError (msgExtract : Res String)
  | otherExc (msg : String)

/-- Embedding of APIClient.make_request (01.py lines 20 to 36): returns
the parsed JSON on success; on Timeout, ConnectionError, a successfully
rendered HTTPError, or any other exception it logs one line and returns
None; when the HTTPError handler itself raises while extracting the
message, nothing is logged and the new exception propagates. -/
def make_request (o : ReqOutcome) : List String × Res (Option JVal) :=
  match o with
  | .ok body => ([], .ok (some body))
  | .timeout => (["请求超时，请检查网络连接。"], .ok none)
  | .connErr => (["无法连接服务器，请稍后重试。"], .ok none)
  | .httpError (.ok m) => (["HTTP 错误：" ++ m], .ok none)
  | .httpError (.err e) => ([], .err e)
  | .otherExc m => (["未知错误：" ++ m], .ok none)

/-- Embedding of APIClient.authenticate_user (01.py lines 47 to 56),
tracking self.token across the call.  On a truthy response body the
token is assigned result["data"]["auth_data"] and then the log line
evaluates result["data"]["token"]; a failure of the first subscript
leaves the token unchanged and propagates, a failure of the second
propagates after the token has already been assigned.  On a falsy or
None result the token is set to None and a failure line is logged. -/
def authenticate_user (o : ReqOutcome) (token0 : Option JVal) :
    (List String × Option JVal) × Res Unit :=
  match make_request o with
  | (lg, .err e) => ((lg, token0), .err e)
  | (lg, .ok none) => ((lg ++ ["登录失败"], none), .ok ())
  | (lg, .ok (some j)) =>
    if truthyJ j then
      match jGet2 j "data" "auth_data" with
      | .err e => ((lg, token0), .err e)
      | .ok a =>
        match jGet2 j "data" "token" with
        | .err e => ((lg, some a), .err e)
        | .ok t => ((lg ++ ["登录成功，Token: " ++ pyStrJ t], some a), .ok ())
    else ((lg ++ ["登录失败"], none), .ok ())

/-!
Claim theorems.
-/

/-- C6: calling cache_sub_info with an empty (falsy) info payload always
raises an exception with message "no sub info" and never writes a
sub_info entry; the whole cache, in particular any prior sub_info entry,
is left unchanged.  (Holds for every opt and every outcome of the
computation oracle, which the falsy branch never reaches.) -/
theorem cache_sub_info_empty_C6 (compute : Res (List String))
    (cache : Cache) (log : List String) :
    cache_sub_info true compute cache log
      = ((cache, log ++ ["订阅信息为空"]), Res.err ⟨ExcKind.other, "no sub info"⟩) := rfl

/-- C4, failing input: running save_sub with gen_base64_and_clash_config
returning node count 5 stores the bare string "5" under the key node_n,
not a list of strings, contradicting both the claim and the declared
parameter type dict[str, list[str]] of the source. -/
theorem save_sub_node_n_C4 :
    cget (save_sub false (Res.ok ["10MB", "20MB", "永不过期", "x"]) (Res.ok 5)
        (fun _ => Res.ok 0) "b64u" "cu" "h" [("sub_url", CVal.vlist ["u"])] []).fst.fst
        "node_n" = some (CVal.vstr "5")
      ∧ ∀ l : List String, CVal.vstr "5" ≠ CVal.vlist l :=
  ⟨rfl, fun _ h => CVal.noConfusion h⟩

/-- C9: when the cache has no type entry, new_panel_session with a
guessed mapping lacking type returns None and leaves the cache
completely unchanged, and with a guessed mapping containing type it
merges the whole mapping into the cache and constructs the session from
the merged cache. -/
theorem new_panel_session_C9 {α : Type} (guess : List (String × CVal))
    (mk : Cache → Res α) (host : String) (cache : Cache) (log : List String)
    (htype : cget cache "type" = none) :
    (cget guess "type" = none →
      (new_panel_session guess mk host cache log).fst.fst = cache ∧
      (new_panel_session guess mk host cache log).snd = Res.ok none) ∧
    (∀ v, cget guess "type" = some v →
      (new_panel_session guess mk host cache log).fst.fst = cupdate cache guess ∧
      (new_panel_session guess mk host cache log).snd
        = resMapSome (mk (cupdate cache guess))) := by
  unfold new_panel_session
  rw [htype]
  constructor
  · intro hg
    rw [hg]
    cases hk : cget guess "error" with
    | none => exact ⟨rfl, rfl⟩
    | some ev =>
      by_cases ht : truthyC ev = true
      · simp [ht]
      · simp [ht]
  · intro v hv
    rw [hv]
    exact ⟨rfl, rfl⟩

/-- C9 witness: concrete runs discharging the hypotheses, one for the
missing-type case and one for the merge case. -/
theorem new_panel_session_C9_witness :
    (new_panel_session (α := Unit) [("error", CVal.vstr "boom")]
        (fun _ => Res.ok ()) "h" [] []).fst.fst = [] ∧
    (new_panel_session (α := Unit) [("type", CVal.vstr "v2board")]
        (fun _ => Res.ok ()) "h" [] []).fst.fst
      = cupdate [] [("type", CVal.vstr "v2board")] :=
  ⟨((new_panel_session_C9 [("error", CVal.vstr "boom")]
      (fun _ => Res.ok ()) "h" [] [] rfl).1 rfl).1,
   ((new_panel_session_C9 [("type", CVal.vstr "v2board")]
      (fun _ => Res.ok ()) "h" [] [] rfl).2 (CVal.vstr "v2board") rfl).1⟩

/-- C8: save_sub removes only its two marker keys at entry; when
cache_sub_info raises, the only cache key the first step writes is its
marker (so any prior sub_info value is unchanged); when
save_sub_base64_and_clash raises, the only cache key the second step
writes is its marker (so any prior node_n value is unchanged); and
node_n is written only when save_sub_base64_and_clash returned
successfully. -/
theorem save_sub_frame_C8 (infoFalsy : Bool) (compute : Res (List String))
    (genCfg : Res Int) (g0int : Cache → Res Int)
    (host base64_url clash_url : String) :
    (∀ c : Cache,
      cget (cpop (cpop c "保存订阅信息失败") "保存base64/clash订阅失败") "保存订阅信息失败" = none ∧
      cget (cpop (cpop c "保存订阅信息失败") "保存base64/clash订阅失败") "保存base64/clash订阅失败" = none ∧
      ∀ k, k ≠ "保存订阅信息失败" → k ≠ "保存base64/clash订阅失败" →
        cget (cpop (cpop c "保存订阅信息失败") "保存base64/clash订阅失败") k = cget c k) ∧
    (∀ (c : Cache) (l : List String) (e : Exc),
      (cache_sub_info infoFalsy compute c l).snd = Res.err e →
      cget (save_sub_step1 infoFalsy compute host clash_url c l).fst "保存订阅信息失败"
        = some (CVal.vlist [e.msg]) ∧
      ∀ k, k ≠ "保存订阅信息失败" →
        cget (save_sub_step1 infoFalsy compute host clash_url c l).fst k = cget c k) ∧
    (∀ (c : Cache) (l : List String) (e : Exc),
      genCfg = Res.err e →
      cget (save_sub_step2 genCfg g0int host base64_url clash_url c l).fst
          "保存base64/clash订阅失败" = some (CVal.vlist [e.msg]) ∧
      ∀ k, k ≠ "保存base64/clash订阅失败" →
        cget (save_sub_step2 genCfg g0int host base64_url clash_url c l).fst k
          = cget c k) ∧
    (∀ (c : Cache) (l : List String),
      cget (save_sub_step2 genCfg g0int host base64_url clash_url c l).fst "node_n"
        ≠ cget c "node_n" →
      ∃ n : Int, genCfg = Res.ok n) := by
  refine ⟨?_, ?_, ?_, ?_⟩
  · intro c
    refine ⟨?_, ?_, ?_⟩
    · rw [cget_cpop_ne _ _ _ (by decide), cget_cpop_self]
    · exact cget_cpop_self _ _
    · intro k h1 h2
      rw [cget_cpop_ne _ _ _ (Ne.symm h2), cget_cpop_ne _ _ _ (Ne.symm h1)]
  · intro c l e h
    have hc := cache_sub_info_err_cache infoFalsy compute c l e h
    unfold save_sub_step1
    rcases hr : cache_sub_info infoFalsy compute c l with ⟨⟨c1, l1⟩, r⟩
    rw [hr] at h hc
    simp only at h hc
    subst hc
    subst h
    exact ⟨cget_cset_self _ _ _, fun k hk => cget_cset_ne _ _ _ _ (Ne.symm hk)⟩
  · intro c l e h
    subst h
    unfold save_sub_step2 save_sub_b64c
    exact ⟨cget_cset_self _ _ _, fun k hk => cget_cset_ne _ _ _ _ (Ne.symm hk)⟩
  · intro c l h
    cases hg : genCfg with
    | ok n => exact ⟨n, rfl⟩
    | err e =>
      exfalso
      apply h
      subst hg
      unfold save_sub_step2 save_sub_b64c
      exact cget_cset_ne _ _ _ _ (by decide)

/-- C8 witness: concrete runs discharging each hypothesis, one with the
info step raising and a failing generator, one with a successful
generator writing node_n. -/
theorem save_sub_frame_C8_witness :
    cget (save_sub_step1 true (Res.ok []) "h" "cu" [("sub_info", CVal.vlist ["old"])] []).fst
        "保存订阅信息失败" = some (CVal.vlist ["no sub info"]) ∧
    cget (save_sub_step1 true (Res.ok []) "h" "cu" [("sub_info", CVal.vlist ["old"])] []).fst
        "sub_info" = cget [("sub_info", CVal.vlist ["old"])] "sub_info" ∧
    cget (save_sub_step2 (Res.err ⟨ExcKind.other, "gen"⟩) (fun _ => Res.ok 0)
        "h" "bu" "cu" [("node_n", CVal.vstr "3")] []).fst "node_n"
      = cget [("node_n", CVal.vstr "3")] "node_n" ∧
    ∃ n : Int, (Res.ok 5 : Res Int) = Res.ok n := by
  refine ⟨?_, ?_, ?_, ?_⟩
  · exact ((save_sub_frame_C8 true (Res.ok []) (Res.err ⟨ExcKind.other, "gen"⟩)
      (fun _ => Res.ok 0) "h" "bu" "cu").2.1 [("sub_info", CVal.vlist ["old"])] []
      ⟨ExcKind.other, "no sub info"⟩ rfl).1
  · exact ((save_sub_frame_C8 true (Res.ok []) (Res.err ⟨ExcKind.other, "gen"⟩)
      (fun _ => Res.ok 0) "h" "bu" "cu").2.1 [("sub_info", CVal.vlist ["old"])] []
      ⟨ExcKind.other, "no sub info"⟩ rfl).2 "sub_info" (by decide)
  · exact ((save_sub_frame_C8 true (Res.ok []) (Res.err ⟨ExcKind.other, "gen"⟩)
      (fun _ => Res.ok 0) "h" "bu" "cu").2.2.1 [("node_n", CVal.vstr "3")] []
      ⟨ExcKind.other, "gen"⟩ rfl).2 "node_n" (by decide)
  · exact (save_sub_frame_C8 true (Res.ok []) (Res.ok 5)
      (fun _ => Res.ok 0) "h" "bu" "cu").2.2.2 [] []
      (by
        intro h
        exact absurd h (by decide))

/-- C10, counterexample: when the server answers with an HTTP error
status whose body is not JSON, the message extraction inside the
HTTPError handler raises and propagates, so make_request neither
returns None nor returns a parsed body - the claim that it never raises
is false. -/
theorem make_request_raises_C10_cex :
    make_request (ReqOutcome.httpError (Res.err ⟨ExcKind.valueError, "Expecting value"⟩))
      = ([], Res.err ⟨ExcKind.valueError, "Expecting value"⟩) := rfl

/-- C10, amended: make_request returns None for a timeout, a connection
error, an HTTP error status whose message extraction succeeds, and any
other exception, and returns the parsed body exactly on success (it can
still raise when the HTTP-error message extraction itself raises).
After authenticate_user, the token is None whenever make_request
returned None, and equals the auth_data field of the data object of the
body whenever the request succeeded with a truthy, well-shaped body. -/
theorem make_request_auth_C10 :
    (∀ body : JVal, make_request (ReqOutcome.ok body) = ([], Res.ok (some body))) ∧
    make_request ReqOutcome.timeout = (["请求超时，请检查网络连接。"], Res.ok none) ∧
    make_request ReqOutcome.connErr = (["无法连接服务器，请稍后重试。"], Res.ok none) ∧
    (∀ m : String, make_request (ReqOutcome.httpError (Res.ok m))
      = (["HTTP 错误：" ++ m], Res.ok none)) ∧
    (∀ m : String, make_request (ReqOutcome.otherExc m)
      = (["未知错误：" ++ m], Res.ok none)) ∧
    (∀ (o : ReqOutcome) (token0 : Option JVal),
      (make_request o).snd = Res.ok none →
      (authenticate_user o token0).fst.snd = none ∧
      (authenticate_user o token0).snd = Res.ok ()) ∧
    (∀ (o : ReqOutcome) (token0 : Option JVal) (lg : List String) (j a t : JVal),
      make_request o = (lg, Res.ok (some j)) →
      truthyJ j = true →
      jGet2 j "data" "auth_data" = Res.ok a →
      jGet2 j "data" "token" = Res.ok t →
      (authenticate_user o token0).fst.snd = some a) := by
  refine ⟨fun _ => rfl, rfl, rfl, fun _ => rfl, fun _ => rfl, ?_, ?_⟩
  · intro o token0 h
    unfold authenticate_user
    rcases hm : make_request o with ⟨lg, r⟩
    rw [hm] at h
    simp only at h
    subst h
    exact ⟨rfl, rfl⟩
  · intro o token0 lg j a t hm ht ha htok
    unfold authenticate_user
    rw [hm]
    simp [ht, ha, htok]

/-- C10 witness: a concrete successful login discharging the hypotheses
of the amended theorem, and a concrete timeout for the None case. -/
theorem make_request_auth_C10_witness :
    (authenticate_user
        (ReqOutcome.ok (JVal.jobj [("data",
          JVal.jobj [("auth_data", JVal.jstr "A"), ("token", JVal.jstr "T")])]))
        none).fst.snd = some (JVal.jstr "A") ∧
    (authenticate_user ReqOutcome.timeout none).fst.snd = none :=
  ⟨make_request_auth_C10.2.2.2.2.2.2
      (ReqOutcome.ok (JVal.jobj [("data",
        JVal.jobj [("auth_data", JVal.jstr "A"), ("token", JVal.jstr "T")])]))
      none []
      (JVal.jobj [("data",
        JVal.jobj [("auth_data", JVal.jstr "A"), ("token", JVal.jstr "T")])])
      (JVal.jstr "A") (JVal.jstr "T") rfl rfl rfl rfl,
   (make_request_auth_C10.2.2.2.2.2.1 ReqOutcome.timeout none rfl).1⟩

/-- C7, counterexample: a concrete timeout inside get_sub runs an
exception branch that logs and re-raises but records nothing in the
cache - the final cache equals the initial cache, so no failure marker
was stored under any fixed key, refuting conjunct (b) of the claim. -/
theorem get_sub_no_marker_C7_cex :
    (get_sub (α := Nat) (Res.ok "nm") (Res.err ⟨ExcKind.timeout, "t"⟩)
        [("sub_url", CVal.vlist ["u"])] []).fst.fst = [("sub_url", CVal.vlist ["u"])] ∧
    (get_sub (α := Nat) (Res.ok "nm") (Res.err ⟨ExcKind.timeout, "t"⟩)
        [("sub_url", CVal.vlist ["u"])] []).snd = Res.err ⟨ExcKind.timeout, "t"⟩ :=
  ⟨rfl, rfl⟩

/-- The log line each except branch of get_sub appends, by exception
kind (get_trial.py lines 35 to 46). -/
def get_sub_fail_msg (e : Exc) (u : String) : String :=
  match e.kind with
  | .timeout => "获取订阅超时: " ++ u
  | .connErr => "连接错误: " ++ u
  | _ => "获取订阅失败: " ++ u ++ ", 错误: " ++ e.msg

/-- C7, amended: on any exception from the wrapped call, every exception
branch of get_sub appends a log line and re-raises while leaving the
cache unchanged (the failure markers are written by the caller try_turn,
not by get_sub), and every exception branch of make_request logs one
line and returns the degraded result None (01.py has no cache at all);
conjunct (b) of the original claim holds for neither wrapper. -/
theorem wrappers_C7 {α : Type} (g0name : Res String) (e : Exc)
    (cache : Cache) (log : List String) (u s : String)
    (hurl : sub_url0 cache = Res.ok u) (hg : g0name = Res.ok s) :
    (get_sub g0name (Res.err e : Res α) cache log).fst.fst = cache ∧
    (get_sub g0name (Res.err e : Res α) cache log).snd = Res.err e ∧
    (get_sub g0name (Res.err e : Res α) cache log).fst.snd
      = log ++ ["开始获取订阅: " ++ u, get_sub_fail_msg e u] ∧
    make_request ReqOutcome.timeout = (["请求超时，请检查网络连接。"], Res.ok none) ∧
    make_request ReqOutcome.connErr = (["无法连接服务器，请稍后重试。"], Res.ok none) ∧
    (∀ m2 : String, make_request (ReqOutcome.httpError (Res.ok m2))
      = (["HTTP 错误：" ++ m2], Res.ok none)) ∧
    (∀ m2 : String, make_request (ReqOutcome.otherExc m2)
      = (["未知错误：" ++ m2], Res.ok none)) := by
  subst hg
  refine ⟨?_, ?_, ?_, rfl, rfl, fun _ => rfl, fun _ => rfl⟩
  · exact get_sub_cache_eq _ _ _ _
  · unfold get_sub
    rw [hurl]
    obtain ⟨k, m⟩ := e
    cases k <;> rfl
  · unfold get_sub
    rw [hurl]
    obtain ⟨k, m⟩ := e
    cases k <;> simp [get_sub_fail_msg]

/-- C7 witness: a concrete connection error run discharging the
hypotheses of the amended wrapper theorem. -/
theorem wrappers_C7_witness :
    (get_sub (α := Nat) (Res.ok "nm") (Res.err ⟨ExcKind.connErr, "c"⟩)
        [("sub_url", CVal.vlist ["u"])] []).snd = Res.err ⟨ExcKind.connErr, "c"⟩ :=
  (wrappers_C7 (Res.ok "nm") ⟨ExcKind.connErr, "c"⟩
    [("sub_url", CVal.vlist ["u"])] [] "u" "nm" rfl rfl).2.1

/-- C1, counterexample: with a cache that has no sub_url entry, a
failing should_turn makes the failure-logging f-string itself raise
KeyError, so try_turn propagates an exception instead of returning
None. -/
theorem try_turn_C1_cex :
    (try_turn (α := Nat) (fun c => (c, Res.err ⟨ExcKind.other, "boom"⟩))
        (fun _ c l => ((c, l), Res.ok ())) (Res.ok "nm") (Res.ok 7) "h" [] []).snd
      = Res.err ⟨ExcKind.keyError, "sub_url"⟩ := rfl

/-- C1, amended: if should_turn raises, and the cache it leaves behind
still maps sub_url to a nonempty entry and does not itself contain the
other two markers, then try_turn returns None, neither do_turn nor
get_sub is invoked (the result is the same for arbitrary replacement
oracles), and of the three markers removed at entry only the
update-old-subscription marker is present afterwards, holding the
exception message. -/
theorem try_turn_decide_fail_C1 {α : Type}
    (st : Cache → Cache × Res (Int × List α))
    (dt : Bool → Cache → List String → (Cache × List String) × Res Unit)
    (g0n : Res String) (http : Res α) (host : String)
    (cache : Cache) (log : List String) (c1 : Cache) (e : Exc) (u : String)
    (hst : st (pop3 cache) = (c1, Res.err e))
    (hurl : sub_url0 c1 = Res.ok u)
    (hm2 : cget c1 "更新订阅链接/续费续签失败" = none)
    (hm3 : cget c1 "获取订阅失败" = none) :
    (try_turn st dt g0n http host cache log).snd = Res.ok none ∧
    cget (try_turn st dt g0n http host cache log).fst.fst "更新旧订阅失败"
      = some (CVal.vlist [e.msg]) ∧
    cget (try_turn st dt g0n http host cache log).fst.fst "更新订阅链接/续费续签失败" = none ∧
    cget (try_turn st dt g0n http host cache log).fst.fst "获取订阅失败" = none ∧
    (∀ (dt2 : Bool → Cache → List String → (Cache × List String) × Res Unit)
       (g0n2 : Res String) (http2 : Res α),
       try_turn st dt2 g0n2 http2 host cache log
         = try_turn st dt g0n http host cache log) := by
  have hred : ∀ (dt2 : Bool → Cache → List String → (Cache × List String) × Res Unit)
      (g0n2 : Res String) (http2 : Res α),
      try_turn st dt2 g0n2 http2 host cache log
        = decide_fail host e c1 (log ++ ["尝试更新订阅: " ++ host]) := by
    intro dt2 g0n2 http2
    simp only [try_turn]
    rw [hst]
  have hdf : (decide_fail (α := α) host e c1 (log ++ ["尝试更新订阅: " ++ host]))
      = ((cset c1 "更新旧订阅失败" (CVal.vlist [e.msg]),
          (log ++ ["尝试更新订阅: " ++ host])
            ++ ["更新旧订阅失败(" ++ host ++ ")(" ++ u ++ "): " ++ e.msg]),
         Res.ok none) := by
    simp only [decide_fail]
    rw [sub_url0_cset_ne c1 _ _ (by decide), hurl]
  rw [hred dt g0n http, hdf]
  refine ⟨rfl, ?_, ?_, ?_, ?_⟩
  · exact cget_cset_self _ _ _
  · rw [cget_cset_ne _ _ _ _ (by decide)]
    exact hm2
  · rw [cget_cset_ne _ _ _ _ (by decide)]
    exact hm3
  · intro dt2 g0n2 http2
    rw [hred dt2 g0n2 http2, hdf]

/-- C1 witness: a concrete run with sub_url present discharging all
hypotheses of the amended theorem. -/
theorem try_turn_decide_fail_C1_witness :
    (try_turn (α := Nat) (fun c => (c, Res.err ⟨ExcKind.other, "boom"⟩))
        (fun _ c l => ((c, l), Res.ok ())) (Res.ok "nm") (Res.ok 7) "h"
        [("sub_url", CVal.vlist ["u"])] []).snd = Res.ok none :=
  (try_turn_decide_fail_C1 (fun c => (c, Res.err ⟨ExcKind.other, "boom"⟩))
    (fun _ c l => ((c, l), Res.ok ())) (Res.ok "nm") (Res.ok 7) "h"
    [("sub_url", CVal.vlist ["u"])] [] [("sub_url", CVal.vlist ["u"])]
    ⟨ExcKind.other, "boom"⟩ "u" rfl rfl rfl rfl).1

/-- C5, counterexample: with sub_url bound to an empty list, a failing
should_turn makes the handler log line raise IndexError, which
propagates out of try_turn - so try_turn does not swallow every failure
of its callees. -/
theorem try_turn_C5_cex :
    (try_turn (α := Nat) (fun c => (c, Res.err ⟨ExcKind.other, "boom"⟩))
        (fun _ c l => ((c, l), Res.ok ())) (Res.ok "nm") (Res.ok 7) "h"
        [("sub_url", CVal.vlist [])] []).snd
      = Res.err ⟨ExcKind.indexError, "list index out of range"⟩ := rfl

/-- C5, amended: save_sub always terminates normally (its two handlers
perform only dict writes and string appends), and try_turn terminates
normally for every behaviour of the external callees provided the cache
each failure handler sees still maps sub_url to a nonempty entry; when
sub_url is missing or empty at such a point, the log line inside the
handler itself raises and try_turn propagates that exception. -/
theorem pipeline_no_raise_C5 {α : Type}
    (st : Cache → Cache × Res (Int × List α))
    (dt : Bool → Cache → List String → (Cache × List String) × Res Unit)
    (g0n : Res String) (http : Res α) (host : String)
    (cache : Cache) (log : List String)
    (infoFalsy : Bool) (compute : Res (List String)) (genCfg : Res Int)
    (g0int : Cache → Res Int) (b64u cu host2 : String)
    (cache2 : Cache) (log2 : List String) :
    (save_sub infoFalsy compute genCfg g0int b64u cu host2 cache2 log2).snd
      = Res.ok () ∧
    (∀ c1 e, st (pop3 cache) = (c1, Res.err e) →
      (∃ u, sub_url0 c1 = Res.ok u) →
      ((try_turn st dt g0n http host cache log).snd).isOk = true) ∧
    (∀ c1 turn sub, st (pop3 cache) = (c1, Res.ok (turn, sub)) →
      (∀ b l, ∃ u, sub_url0 (dt b c1 l).fst.fst = Res.ok u) →
      ((try_turn st dt g0n http host cache log).snd).isOk = true) := by
  refine ⟨rfl, ?_, ?_⟩
  · intro c1 e hst hu
    obtain ⟨u, hu⟩ := hu
    simp only [try_turn]
    rw [hst]
    simp only [decide_fail]
    rw [sub_url0_cset_ne c1 _ _ (by decide), hu]
    rfl
  · intro c1 turn sub hst hsub
    simp only [try_turn]
    rw [hst]
    simp only [turn_branch]
    by_cases ht : turn = 0
    · rw [if_pos ht]
      rfl
    · rw [if_neg ht]
      rcases hdt : dt (turn == 2) c1 (log ++ ["尝试更新订阅: " ++ host])
        with ⟨⟨c2, l2⟩, r⟩
      have hc2 : (dt (turn == 2) c1 (log ++ ["尝试更新订阅: " ++ host])).fst.fst = c2 := by
        rw [hdt]
      cases r with
      | err e => rfl
      | ok v =>
        simp only [fetch_branch]
        rcases hg : get_sub g0n http c2 (l2 ++ ["执行订阅更新成功: " ++ host])
          with ⟨⟨c3, l4⟩, r2⟩
        have hc3 : c3 = c2 := by
          have := get_sub_cache_eq g0n http c2 (l2 ++ ["执行订阅更新成功: " ++ host])
          rw [hg] at this
          exact this
        cases r2 with
        | ok sub2 => rfl
        | err e =>
          dsimp only
          obtain ⟨u, hu⟩ := hsub (turn == 2) (log ++ ["尝试更新订阅: " ++ host])
          rw [hdt] at hu
          simp only at hu
          rw [sub_url0_cset_ne _ _ _ (by decide), hc3, hu]
          rfl

/-- C5 witness: concrete runs discharging the hypotheses, one for a
failing decision step and one for a renewal path with a failing fetch. -/
theorem pipeline_no_raise_C5_witness :
    ((try_turn (α := Nat) (fun c => (c, Res.err ⟨ExcKind.other, "a"⟩))
        (fun _ c l => ((c, l), Res.ok ())) (Res.ok "nm")
        (Res.err ⟨ExcKind.timeout, "t"⟩) "h"
        [("sub_url", CVal.vlist ["u"])] []).snd).isOk = true ∧
    ((try_turn (α := Nat) (fun c => (c, Res.ok (2, [9])))
        (fun _ c l => ((c, l), Res.ok ())) (Res.ok "nm")
        (Res.err ⟨ExcKind.timeout, "t"⟩) "h"
        [("sub_url", CVal.vlist ["u"])] []).snd).isOk = true :=
  ⟨(pipeline_no_raise_C5 (fun c => (c, Res.err ⟨ExcKind.other, "a"⟩))
      (fun _ c l => ((c, l), Res.ok ())) (Res.ok "nm")
      (Res.err ⟨ExcKind.timeout, "t"⟩) "h" [("sub_url", CVal.vlist ["u"])] []
      false (Res.ok []) (Res.ok 0) (fun _ => Res.ok 0) "b" "c" "h" [] []).2.1
      [("sub_url", CVal.vlist ["u"])] ⟨ExcKind.other, "a"⟩ rfl ⟨"u", rfl⟩,
   (pipeline_no_raise_C5 (fun c => (c, Res.ok (2, [9])))
      (fun _ c l => ((c, l), Res.ok ())) (Res.ok "nm")
      (Res.err ⟨ExcKind.timeout, "t"⟩) "h" [("sub_url", CVal.vlist ["u"])] []
      false (Res.ok []) (Res.ok 0) (fun _ => Res.ok 0) "b" "c" "h" [] []).2.2
      [("sub_url", CVal.vlist ["u"])] 2 [9] rfl (fun _ _ => ⟨"u", rfl⟩)⟩

/-- C2, counterexample: do_turn succeeds but removes sub_url from the
cache; get_sub then raises KeyError at its sub_url lookup, the fetch
failure marker is written, but the handler log line itself raises, so
try_turn propagates an exception and does not return the sub obtained
from should_turn. -/
theorem try_turn_C2_cex :
    (try_turn (α := Nat) (fun c => (c, Res.ok (1, [42])))
        (fun _ c l => ((cpop c "sub_url", l), Res.ok ())) (Res.ok "nm")
        (Res.ok 9) "h" [("sub_url", CVal.vlist ["u"])] []).snd
      = Res.err ⟨ExcKind.keyError, "sub_url"⟩ := rfl

/-- C2, amended: with should_turn succeeding with a truthy turn, if
do_turn raises then try_turn records the message under the
renewal-failure marker and returns sub exactly as should_turn produced
it; if do_turn succeeds but get_sub raises while the cache after
do_turn still maps sub_url to a nonempty entry, try_turn records the
message under the fetch-failure marker and still returns the sub from
should_turn (without that proviso the failure handler itself raises, as
the counterexample shows). -/
theorem try_turn_preserve_sub_C2 {α : Type}
    (st : Cache → Cache × Res (Int × List α))
    (dt : Bool → Cache → List String → (Cache × List String) × Res Unit)
    (g0n : Res String) (http : Res α) (host : String)
    (cache : Cache) (log : List String)
    (c1 : Cache) (turn : Int) (sub : List α)
    (hst : st (pop3 cache) = (c1, Res.ok (turn, sub)))
    (hturn : turn ≠ 0) :
    (∀ c2 l2 e,
      dt (turn == 2) c1 (log ++ ["尝试更新订阅: " ++ host]) = ((c2, l2), Res.err e) →
      (try_turn st dt g0n http host cache log).snd = Res.ok (some sub) ∧
      cget (try_turn st dt g0n http host cache log).fst.fst "更新订阅链接/续费续签失败"
        = some (CVal.vlist [e.msg])) ∧
    (∀ c2 l2 e u,
      dt (turn == 2) c1 (log ++ ["尝试更新订阅: " ++ host]) = ((c2, l2), Res.ok ()) →
      sub_url0 c2 = Res.ok u →
      (get_sub g0n http c2 (l2 ++ ["执行订阅更新成功: " ++ host])).snd = Res.err e →
      (try_turn st dt g0n http host cache log).snd = Res.ok (some sub) ∧
      cget (try_turn st dt g0n http host cache log).fst.fst "获取订阅失败"
        = some (CVal.vlist [e.msg])) := by
  constructor
  · intro c2 l2 e hdt
    simp only [try_turn]
    rw [hst]
    simp only [turn_branch]
    rw [if_neg hturn, hdt]
    dsimp only
    exact ⟨rfl, cget_cset_self _ _ _⟩
  · intro c2 l2 e u hdt hu hget
    simp only [try_turn]
    rw [hst]
    simp only [turn_branch]
    rw [if_neg hturn, hdt]
    dsimp only
    simp only [fetch_branch]
    rcases hg : get_sub g0n http c2 (l2 ++ ["执行订阅更新成功: " ++ host])
      with ⟨⟨c3, l4⟩, r⟩
    have hc3 : c3 = c2 := by
      have := get_sub_cache_eq g0n http c2 (l2 ++ ["执行订阅更新成功: " ++ host])
      rw [hg] at this
      exact this
    rw [hg] at hget
    simp only at hget
    subst hget
    dsimp only
    rw [sub_url0_cset_ne _ _ _ (by decide), hc3, hu]
    dsimp only
    exact ⟨rfl, cget_cset_self _ _ _⟩

/-- C2 witness: concrete runs discharging the hypotheses of both parts
of the amended theorem. -/
theorem try_turn_preserve_sub_C2_witness :
    (try_turn (α := Nat) (fun c => (c, Res.ok (1, [5])))
        (fun _ c l => ((c, l), Res.err ⟨ExcKind.other, "renew"⟩)) (Res.ok "nm")
        (Res.ok 9) "h" [("sub_url", CVal.vlist ["u"])] []).snd = Res.ok (some [5]) ∧
    (try_turn (α := Nat) (fun c => (c, Res.ok (1, [5])))
        (fun _ c l => ((c, l), Res.ok ())) (Res.ok "nm")
        (Res.err ⟨ExcKind.timeout, "t"⟩) "h" [("sub_url", CVal.vlist ["u"])] []).snd
      = Res.ok (some [5]) :=
  ⟨((try_turn_preserve_sub_C2 (fun c => (c, Res.ok (1, [5])))
      (fun _ c l => ((c, l), Res.err ⟨ExcKind.other, "renew"⟩)) (Res.ok "nm")
      (Res.ok 9) "h" [("sub_url", CVal.vlist ["u"])] []
      [("sub_url", CVal.vlist ["u"])] 1 [5] rfl (by decide)).1
      [("sub_url", CVal.vlist ["u"])] ["尝试更新订阅: h"]
      ⟨ExcKind.other, "renew"⟩ rfl).1,
   ((try_turn_preserve_sub_C2 (fun c => (c, Res.ok (1, [5])))
      (fun _ c l => ((c, l), Res.ok ())) (Res.ok "nm")
      (Res.err ⟨ExcKind.timeout, "t"⟩) "h" [("sub_url", CVal.vlist ["u"])] []
      [("sub_url", CVal.vlist ["u"])] 1 [5] rfl (by decide)).2
      [("sub_url", CVal.vlist ["u"])] ["尝试更新订阅: h"]
      ⟨ExcKind.timeout, "t"⟩ "u" rfl rfl rfl).1⟩

/-- C3: try_turn begins by removing exactly the three failure markers
and no other keys; with turn = 0 it performs no renewal and no re-fetch
and returns the remaining tuple elements from should_turn (the result
does not depend on the renewal or fetch oracles at all); with turn = 1
it calls do_turn with force_reg false; with turn = 2 it calls do_turn
with force_reg true; and after a successful do_turn and a successful
re-fetch the value fetched by get_sub replaces the returned subscription
body. -/
theorem try_turn_flow_C3 {α : Type}
    (st : Cache → Cache × Res (Int × List α))
    (dt : Bool → Cache → List String → (Cache × List String) × Res Unit)
    (g0n : Res String) (http : Res α) (host : String)
    (cache : Cache) (log : List String) :
    (cget (pop3 cache) "更新旧订阅失败" = none ∧
     cget (pop3 cache) "更新订阅链接/续费续签失败" = none ∧
     cget (pop3 cache) "获取订阅失败" = none ∧
     ∀ k, k ≠ "更新旧订阅失败" → k ≠ "更新订阅链接/续费续签失败" → k ≠ "获取订阅失败" →
       cget (pop3 cache) k = cget cache k) ∧
    (∀ c1 sub, st (pop3 cache) = (c1, Res.ok (0, sub)) →
      try_turn st dt g0n http host cache log
        = ((c1, log ++ ["尝试更新订阅: " ++ host]), Res.ok (some sub))) ∧
    (∀ c1 sub, st (pop3 cache) = (c1, Res.ok (1, sub)) →
      try_turn st dt g0n http host cache log
        = try_turn st (fun _ c l => dt false c l) g0n http host cache log) ∧
    (∀ c1 sub, st (pop3 cache) = (c1, Res.ok (2, sub)) →
      try_turn st dt g0n http host cache log
        = try_turn st (fun _ c l => dt true c l) g0n http host cache log) ∧
    (∀ c1 turn sub c2 l2 s u info,
      st (pop3 cache) = (c1, Res.ok (turn, sub)) → turn ≠ 0 →
      dt (turn == 2) c1 (log ++ ["尝试更新订阅: " ++ host]) = ((c2, l2), Res.ok ()) →
      g0n = Res.ok s → sub_url0 c2 = Res.ok u → http = Res.ok info →
      (try_turn st dt g0n http host cache log).snd = Res.ok (some [info])) := by
  refine ⟨⟨?_, ?_, ?_, ?_⟩, ?_, ?_, ?_, ?_⟩
  · unfold pop3
    rw [cget_cpop_ne _ _ _ (by decide), cget_cpop_ne _ _ _ (by decide),
      cget_cpop_self]
  · unfold pop3
    rw [cget_cpop_ne _ _ _ (by decide), cget_cpop_self]
  · exact cget_cpop_self _ _
  · intro k h1 h2 h3
    unfold pop3
    rw [cget_cpop_ne _ _ _ (Ne.symm h3), cget_cpop_ne _ _ _ (Ne.symm h2),
      cget_cpop_ne _ _ _ (Ne.symm h1)]
  · intro c1 sub hst0
    simp only [try_turn]
    rw [hst0]
    simp only [turn_branch]
    simp
  · intro c1 sub hst1
    have h12 : ((1 : Int) == 2) = false := rfl
    simp only [try_turn]
    rw [hst1]
    simp only [turn_branch, h12]
  · intro c1 sub hst2
    have h22 : ((2 : Int) == 2) = true := rfl
    simp only [try_turn]
    rw [hst2]
    simp only [turn_branch, h22]
  · intro c1 turn sub c2 l2 s u info hst hturn hdt hg0 hu hhttp
    subst hg0
    subst hhttp
    simp only [try_turn]
    rw [hst]
    simp only [turn_branch]
    rw [if_neg hturn, hdt]
    dsimp only
    simp only [fetch_branch, get_sub]
    rw [hu]

/-- C3 witness: concrete runs discharging the hypotheses of the four
conditional conjuncts. -/
theorem try_turn_flow_C3_witness :
    try_turn (α := Nat) (fun c => (c, Res.ok (0, [3])))
        (fun _ c l => ((c, l), Res.ok ())) (Res.ok "nm") (Res.ok 7) "h"
        [("sub_url", CVal.vlist ["u"])] []
      = (([("sub_url", CVal.vlist ["u"])], [] ++ ["尝试更新订阅: " ++ "h"]),
         Res.ok (some [3])) ∧
    try_turn (α := Nat) (fun c => (c, Res.ok (1, [3])))
        (fun b c l => ((c, l), if b then Res.err ⟨ExcKind.other, "f"⟩ else Res.ok ()))
        (Res.ok "nm") (Res.ok 7) "h" [("sub_url", CVal.vlist ["u"])] []
      = try_turn (fun c => (c, Res.ok (1, [3])))
        (fun _ c l => ((c, l),
          if (false : Bool) then Res.err ⟨ExcKind.other, "f"⟩ else Res.ok ()))
        (Res.ok "nm") (Res.ok 7) "h" [("sub_url", CVal.vlist ["u"])] [] ∧
    try_turn (α := Nat) (fun c => (c, Res.ok (2, [3])))
        (fun b c l => ((c, l), if b then Res.err ⟨ExcKind.other, "f"⟩ else Res.ok ()))
        (Res.ok "nm") (Res.ok 7) "h" [("sub_url", CVal.vlist ["u"])] []
      = try_turn (fun c => (c, Res.ok (2, [3])))
        (fun _ c l => ((c, l),
          if (true : Bool) then Res.err ⟨ExcKind.other, "f"⟩ else Res.ok ()))
        (Res.ok "nm") (Res.ok 7) "h" [("sub_url", CVal.vlist ["u"])] [] ∧
    (try_turn (α := Nat) (fun c => (c, Res.ok (2, [3])))
        (fun _ c l => ((c, l), Res.ok ())) (Res.ok "nm") (Res.ok 7) "h"
        [("sub_url", CVal.vlist ["u"])] []).snd = Res.ok (some [7]) :=
  ⟨(try_turn_flow_C3 (fun c => (c, Res.ok (0, [3])))
      (fun _ c l => ((c, l), Res.ok ())) (Res.ok "nm") (Res.ok 7) "h"
      [("sub_url", CVal.vlist ["u"])] []).2.1
      [("sub_url", CVal.vlist ["u"])] [3] rfl,
   (try_turn_flow_C3 (fun c => (c, Res.ok (1, [3])))
      (fun b c l => ((c, l), if b then Res.err ⟨ExcKind.other, "f"⟩ else Res.ok ()))
      (Res.ok "nm") (Res.ok 7) "h" [("sub_url", CVal.vlist ["u"])] []).2.2.1
      [("sub_url", CVal.vlist ["u"])] [3] rfl,
   (try_turn_flow_C3 (fun c => (c, Res.ok (2, [3])))
      (fun b c l => ((c, l), if b then Res.err ⟨ExcKind.other, "f"⟩ else Res.ok ()))
      (Res.ok "nm") (Res.ok 7) "h" [("sub_url", CVal.vlist ["u"])] []).2.2.2.1
      [("sub_url", CVal.vlist ["u"])] [3] rfl,
   (try_turn_flow_C3 (fun c => (c, Res.ok (2, [3])))
      (fun _ c l => ((c, l), Res.ok ())) (Res.ok "nm") (Res.ok 7) "h"
      [("sub_url", CVal.vlist ["u"])] []).2.2.2.2
      [("sub_url", CVal.vlist ["u"])] 2 [3] [("sub_url", CVal.vlist ["u"])]
      ["尝试更新订阅: h"] "nm" "u" 7 rfl (by decide) rfl rfl rfl rfl⟩
